import Mathlib

set_option maxRecDepth 10000

/-!
Verification of the godockerfile Dockerfile generator.

The definitions below are a shallow embedding of the Go sources:

* `DockerCmd`, `CopyInstruction`, `DockerfileConfig` embed the data model of
  the `builder` package (the generic-instruction-aware variant that owns
  `OrderedDockerCmds` and emits `WORKDIR` conditionally).
* `formatDockerCmd` embeds the `formatDockerCmd` switch.
* `GenerateDockerfileContent` embeds the `GenerateDockerfileContent` method;
  Go's `(string, error)` return value is embedded as `String × Option String`
  (the text component and the error component), so that "returns no output
  text alongside an error" is directly expressible.
* the `writeDeps` / `writePreRunCmds` / `writeCopyFiles` / `writeDockerCmds`
  functions embed the corresponding `for` loops of `WriteString` calls.

Observation functions (`lines`, `substantiveLines`, `containsSeg`, ...) and
the `spec...` definitions transcribe the wording of the specification and are
used to state the claims against the embedded code.
-/

namespace GoDockerfile

/-- Modelled from the spec: the version string comes from `builder/version.go`,
which is not part of the sources under study; the spec only says the header
comment lines are implementation-dependent and cosmetic, so a fixed value is
used. -/
def Version : String := "dev"

/-- Constant `FROM` of the `DockerCmdType` enumeration. -/
def FROM : String := "FROM"

/-- Constant `RUN` of the `DockerCmdType` enumeration. -/
def RUN : String := "RUN"

/-- Constant `COPY` of the `DockerCmdType` enumeration. -/
def COPY : String := "COPY"

/-- Constant `ADD` of the `DockerCmdType` enumeration. -/
def ADD : String := "ADD"

/-- Constant `WORKDIR` of the `DockerCmdType` enumeration. -/
def WORKDIR : String := "WORKDIR"

/-- Constant `EXPOSE` of the `DockerCmdType` enumeration. -/
def EXPOSE : String := "EXPOSE"

/-- Constant `USER` of the `DockerCmdType` enumeration. -/
def USER : String := "USER"

/-- Constant `ENTRYPOINT` of the `DockerCmdType` enumeration. -/
def ENTRYPOINT : String := "ENTRYPOINT"

/-- Constant `CMD` of the `DockerCmdType` enumeration. -/
def CMD : String := "CMD"

/-- Constant `VOLUME` of the `DockerCmdType` enumeration. -/
def VOLUME : String := "VOLUME"

/-- Constant `ARG` of the `DockerCmdType` enumeration. -/
def ARG : String := "ARG"

/-- Constant `LABEL` of the `DockerCmdType` enumeration. -/
def LABEL : String := "LABEL"

/-- Constant `ENV` of the `DockerCmdType` enumeration. -/
def ENV : String := "ENV"

/-- Constant `HEALTHCHECK` of the `DockerCmdType` enumeration. -/
def HEALTHCHECK : String := "HEALTHCHECK"

/-- Constant `MAINTAINER` of the `DockerCmdType` enumeration. -/
def MAINTAINER : String := "MAINTAINER"

/-- Constant `STOP_SIGNAL` of the `DockerCmdType` enumeration; note its
string value is `STOPSIGNAL`. -/
def STOP_SIGNAL : String := "STOPSIGNAL"

/-- The closed enumeration of generic-instruction kinds (the sixteen
`DockerCmdType` constants, in declaration order). -/
def closedEnumeration : List String :=
  [FROM, RUN, COPY, ADD, WORKDIR, EXPOSE, USER, ENTRYPOINT, CMD, VOLUME,
   ARG, LABEL, ENV, HEALTHCHECK, MAINTAINER, STOP_SIGNAL]

/-- A generic Docker instruction record (`DockerCmd` in the source); the Go
field `Type` is named `CmdType` here because `Type` is reserved in Lean. -/
structure DockerCmd where
  CmdType : String
  Command : String
  Args : List String
deriving DecidableEq

/-- A single COPY instruction: source path and destination path. -/
structure CopyInstruction where
  Origin : String
  Destination : String
deriving DecidableEq

/-- The configuration parameters for generating the Dockerfile
(`DockerfileConfig` in the source, generic-instruction-aware variant). -/
structure DockerfileConfig where
  BaseImage : String
  AppPort : Int
  Dependencies : List String
  CopyFiles : List CopyInstruction
  BuildCommand : String
  PreRunCommands : List String
  RunCommand : String
  Entrypoint : String
  Workspace : String
  ExposePort : Bool
  User : String
  OrderedDockerCmds : List DockerCmd
deriving DecidableEq

/-- Embeds `formatDockerCmd`: the switch over the instruction kind that
renders one generic instruction, or fails on an unknown kind. -/
def formatDockerCmd (cmd : DockerCmd) : Except String String :=
  if cmd.CmdType = RUN ∨ cmd.CmdType = WORKDIR ∨ cmd.CmdType = USER ∨
      cmd.CmdType = MAINTAINER then
    Except.ok (cmd.CmdType ++ " " ++ cmd.Command ++ "\n")
  else if cmd.CmdType = COPY ∨ cmd.CmdType = ADD then
    if cmd.Args.length > 0 then
      Except.ok (cmd.CmdType ++ " " ++ cmd.Command ++ " " ++
        String.intercalate " " cmd.Args ++ "\n")
    else
      Except.ok (cmd.CmdType ++ " " ++ cmd.Command ++ "\n")
  else if cmd.CmdType = EXPOSE ∨ cmd.CmdType = STOP_SIGNAL then
    if cmd.Args.length > 0 then
      Except.ok (cmd.CmdType ++ " " ++ String.intercalate " " cmd.Args ++ "\n")
    else
      Except.ok (cmd.CmdType ++ " " ++ cmd.Command ++ "\n")
  else if cmd.CmdType = ENTRYPOINT ∨ cmd.CmdType = CMD then
    if cmd.Args.length > 0 then
      Except.ok (cmd.CmdType ++ " [\"" ++ cmd.Command ++ "\", \"" ++
        String.intercalate "\", \"" cmd.Args ++ "\"]\n")
    else
      Except.ok (cmd.CmdType ++ " [\"" ++ cmd.Command ++ "\"]\n")
  else if cmd.CmdType = VOLUME then
    if cmd.Args.length > 0 then
      Except.ok ("VOLUME [\"" ++ String.intercalate "\", \"" cmd.Args ++ "\"]\n")
    else
      Except.ok ("VOLUME [\"" ++ cmd.Command ++ "\"]\n")
  else if cmd.CmdType = ARG ∨ cmd.CmdType = LABEL ∨ cmd.CmdType = ENV then
    if cmd.Args.length > 0 then
      Except.ok (cmd.CmdType ++ " " ++ cmd.Command ++ "=" ++
        String.intercalate " " cmd.Args ++ "\n")
    else
      Except.ok (cmd.CmdType ++ " " ++ cmd.Command ++ "\n")
  else if cmd.CmdType = HEALTHCHECK then
    if cmd.Args.length > 0 then
      Except.ok ("HEALTHCHECK CMD " ++ String.intercalate " " cmd.Args ++ "\n")
    else
      Except.ok ("HEALTHCHECK CMD " ++ cmd.Command ++ "\n")
  else
    Except.error ("unknown Docker command type: " ++ cmd.CmdType)

/-- Embeds the dependency-install loop: one continued line per dependency. -/
def writeDeps : List String → String
  | [] => ""
  | dep :: rest => "    " ++ dep ++ " \\ \n" ++ writeDeps rest

/-- Embeds the pre-run-command loop: one `RUN` line per command. -/
def writePreRunCmds : List String → String
  | [] => ""
  | cmd :: rest => "RUN " ++ cmd ++ "\n" ++ writePreRunCmds rest

/-- Embeds the copy-file loop: one `COPY` line per (origin, destination). -/
def writeCopyFiles : List CopyInstruction → String
  | [] => ""
  | file :: rest =>
    "COPY " ++ file.Origin ++ " " ++ file.Destination ++ "\n" ++
      writeCopyFiles rest

/-- Embeds the ordered-instruction loop: formats each record in order and
aborts on the first formatting error, exactly as the Go `for` loop returns
`("", err)` on the first failure. -/
def writeDockerCmds : List DockerCmd → Except String String
  | [] => Except.ok ""
  | cmd :: rest =>
    match formatDockerCmd cmd with
    | Except.error e => Except.error e
    | Except.ok line =>
      match writeDockerCmds rest with
      | Except.error e => Except.error e
      | Except.ok s => Except.ok (line ++ s)

/-- Embeds `GenerateDockerfileContent` (generic-instruction-aware variant).
The Go `(string, error)` result is the pair (text, optional error message);
every `WriteString` call appears as one append, in source order. -/
def GenerateDockerfileContent (config : DockerfileConfig) : String × Option String :=
  if config.BaseImage = "" then
    ("", some "base image cannot be empty")
  else
    let b := "# Auto-generated Dockerfile\n"
    let b := b ++ "# Do not edit this file manually\n"
    let b := b ++ ("# Dockerbot version: " ++ Version ++ "\n")
    let b := b ++ ("FROM " ++ config.BaseImage ++ "\n")
    let b := b ++ "\n"
    let b :=
      if config.Dependencies.length > 0 then
        b ++ "RUN apt-get update && apt-get install -y \\\n" ++
          writeDeps config.Dependencies ++
          "    && apt-get clean && rm -rf /var/lib/apt/lists/*\n" ++ "\n"
      else b
    let b :=
      if config.PreRunCommands.length > 0 then
        b ++ writePreRunCmds config.PreRunCommands ++ "\n"
      else b
    let b :=
      if config.User ≠ "" then
        b ++ ("USER " ++ config.User ++ "\n") ++ "\n"
      else b
    let b :=
      if config.CopyFiles.length > 0 then
        b ++ writeCopyFiles config.CopyFiles ++ "\n"
      else
        b ++ "COPY . .\n" ++ "\n"
    match writeDockerCmds config.OrderedDockerCmds with
    | Except.error e => ("", some e)
    | Except.ok cmdsText =>
      let b := b ++ cmdsText
      let b :=
        if config.BuildCommand ≠ "" then
          b ++ ("RUN " ++ config.BuildCommand ++ "\n") ++ "\n"
        else b
      let b :=
        if config.ExposePort = true ∧ config.AppPort > 0 then
          b ++ ("EXPOSE " ++ toString config.AppPort ++ "\n") ++ "\n"
        else b
      let b :=
        if config.Workspace ≠ "" then
          b ++ ("WORKDIR " ++ config.Workspace ++ "\n") ++ "\n"
        else b
      let b :=
        if config.Entrypoint ≠ "" then
          b ++ ("ENTRYPOINT [\"" ++ config.Entrypoint ++ "\"]\n")
        else b
      (b, none)

/-! Section views: the text each fixed section contributes, used to state the
ordering and separator claims about `GenerateDockerfileContent`. -/

/-- The three cosmetic header comment lines. -/
def headerText : String :=
  "# Auto-generated Dockerfile\n" ++ "# Do not edit this file manually\n" ++
    ("# Dockerbot version: " ++ Version ++ "\n")

/-- The base-image section: the `FROM` line and its blank-line separator. -/
def fromSection (c : DockerfileConfig) : String :=
  "FROM " ++ c.BaseImage ++ "\n" ++ "\n"

/-- The dependency-install section: one compound instruction (index refresh,
one continued line per dependency, cache clean) and its separator. -/
def depsSection (c : DockerfileConfig) : String :=
  if c.Dependencies.length > 0 then
    "RUN apt-get update && apt-get install -y \\\n" ++
      writeDeps c.Dependencies ++
      "    && apt-get clean && rm -rf /var/lib/apt/lists/*\n" ++ "\n"
  else ""

/-- The pre-run-command section: one `RUN` line per command, then the
separator. -/
def preRunSection (c : DockerfileConfig) : String :=
  if c.PreRunCommands.length > 0 then
    writePreRunCmds c.PreRunCommands ++ "\n"
  else ""

/-- The user section: the `USER` line and its separator, when a user is set. -/
def userSection (c : DockerfileConfig) : String :=
  if c.User ≠ "" then "USER " ++ c.User ++ "\n" ++ "\n" else ""

/-- The file-staging section: one `COPY` line per pair, or the fallback
full-context copy, then the separator. -/
def copySection (c : DockerfileConfig) : String :=
  if c.CopyFiles.length > 0 then
    writeCopyFiles c.CopyFiles ++ "\n"
  else
    "COPY . .\n" ++ "\n"

/-- The build-command section: the `RUN` line and its separator. -/
def buildSection (c : DockerfileConfig) : String :=
  if c.BuildCommand ≠ "" then "RUN " ++ c.BuildCommand ++ "\n" ++ "\n" else ""

/-- The port-declaration section: the `EXPOSE` line and its separator. -/
def exposeSection (c : DockerfileConfig) : String :=
  if c.ExposePort = true ∧ c.AppPort > 0 then
    "EXPOSE " ++ toString c.AppPort ++ "\n" ++ "\n"
  else ""

/-- The workspace section: the `WORKDIR` line and its separator, when a
workspace is set. -/
def workspaceSection (c : DockerfileConfig) : String :=
  if c.Workspace ≠ "" then "WORKDIR " ++ c.Workspace ++ "\n" ++ "\n" else ""

/-- The entrypoint section: the single-element `ENTRYPOINT` array line,
with no separator after it. -/
def entrypointSection (c : DockerfileConfig) : String :=
  if c.Entrypoint ≠ "" then "ENTRYPOINT [\"" ++ c.Entrypoint ++ "\"]\n" else ""

/-! Auxiliary rewriting lemmas for flattening the builder chain. -/

theorem append_ite_skip (p : Prop) [Decidable p] (b x : String) :
    (if p then b ++ x else b) = b ++ (if p then x else "") := by
  by_cases h : p <;> simp [h]

theorem append_ite_branch (p : Prop) [Decidable p] (b x y : String) :
    (if p then b ++ x else b ++ y) = b ++ (if p then x else y) := by
  by_cases h : p <;> simp [h]

/-- The successful run of the generator decomposes into the fixed sections,
concatenated in source order. -/
theorem generate_decomp (c : DockerfileConfig) (h : ¬ c.BaseImage = "")
    (t : String) (hc : writeDockerCmds c.OrderedDockerCmds = Except.ok t) :
    GenerateDockerfileContent c =
      (headerText ++ fromSection c ++ depsSection c ++ preRunSection c ++
        userSection c ++ copySection c ++ t ++ buildSection c ++
        exposeSection c ++ workspaceSection c ++ entrypointSection c, none) := by
  unfold GenerateDockerfileContent
  rw [if_neg h, hc]
  simp only [headerText, fromSection, depsSection, preRunSection, userSection,
    copySection, buildSection, exposeSection, workspaceSection,
    entrypointSection, append_ite_skip, append_ite_branch, String.append_assoc]

/-- An empty base image aborts generation before anything is built. -/
theorem generate_base_empty (c : DockerfileConfig) (h : c.BaseImage = "") :
    GenerateDockerfileContent c = ("", some "base image cannot be empty") := by
  unfold GenerateDockerfileContent
  rw [if_pos h]

/-- A failing ordered-instruction loop aborts generation, discarding the
partially built buffer. -/
theorem generate_cmds_error (c : DockerfileConfig) (h : ¬ c.BaseImage = "")
    (e : String) (hc : writeDockerCmds c.OrderedDockerCmds = Except.error e) :
    GenerateDockerfileContent c = ("", some e) := by
  unfold GenerateDockerfileContent
  rw [if_neg h, hc]

/-- A successful generation implies a non-empty base image and a successful
ordered-instruction loop. -/
theorem generate_ok_inv (c : DockerfileConfig)
    (h : (GenerateDockerfileContent c).snd = none) :
    ¬ c.BaseImage = "" ∧
      ∃ t, writeDockerCmds c.OrderedDockerCmds = Except.ok t := by
  by_cases hb : c.BaseImage = ""
  · rw [generate_base_empty c hb] at h
    cases h
  · refine ⟨hb, ?_⟩
    cases hw : writeDockerCmds c.OrderedDockerCmds with
    | error e => rw [generate_cmds_error c hb e hw] at h; cases h
    | ok t => exact ⟨t, rfl⟩

/-! Observation functions, transcribed from the specification's vocabulary. -/

/-- Splits a character list at newline characters. -/
def splitLinesAux : List Char → List Char → List (List Char)
  | [], acc => [acc.reverse]
  | ch :: rest, acc =>
    if ch = '\n' then acc.reverse :: splitLinesAux rest []
    else splitLinesAux rest (ch :: acc)

/-- The lines of a string, split at newline characters (kernel-evaluable
counterpart of splitting on the line terminator). -/
def lines (s : String) : List String :=
  (splitLinesAux s.data []).map String.mk

/-- A substantive line in the spec's sense: non-blank and not one of the
cosmetic header comment lines (which begin with a hash character). -/
def isSubstantive (l : String) : Bool :=
  match l.data with
  | [] => false
  | ch :: _ => ch != '#'

/-- The substantive lines of a generated document. -/
def substantiveLines (s : String) : List String :=
  (lines s).filter isSubstantive

/-- `containsSeg seg s`: the text `seg` occurs contiguously inside `s`. -/
def containsSeg (seg s : String) : Prop := ∃ u v, s = u ++ seg ++ v

theorem containsSeg_left (seg s a : String) (h : containsSeg seg s) :
    containsSeg seg (a ++ s) := by
  obtain ⟨u, v, rfl⟩ := h
  exact ⟨a ++ u, v, by simp [String.append_assoc]⟩

theorem containsSeg_right (seg s b : String) (h : containsSeg seg s) :
    containsSeg seg (s ++ b) := by
  obtain ⟨u, v, rfl⟩ := h
  exact ⟨u, v ++ b, by simp [String.append_assoc]⟩

/-- The last `n` characters of a string. -/
def lastChars (n : Nat) (s : String) : List Char :=
  (s.data.reverse.take n).reverse

/-- The claim's "followed by exactly one blank line": the section text ends
with the line terminator of its last line plus one blank line, and not with
a second blank line. -/
def endsWithOneBlankLine (s : String) : Prop :=
  lastChars 2 s = ['\n', '\n'] ∧ lastChars 3 s ≠ ['\n', '\n', '\n']

instance (s : String) : Decidable (endsWithOneBlankLine s) := by
  unfold endsWithOneBlankLine
  infer_instance

/-- The last `n` characters of an append whose right part has at least `n`
characters are the last `n` characters of the right part. -/
theorem lastChars_append (n : Nat) (s t : String) (h : n ≤ t.data.length) :
    lastChars n (s ++ t) = lastChars n t := by
  unfold lastChars
  rw [String.data_append, List.reverse_append,
    List.take_append_of_le_length (by simpa using h)]

/-! Concrete configurations used by the claims. -/

/-- The spec's section-8 concrete scenario configuration. -/
def scenarioConfig : DockerfileConfig :=
  { BaseImage := "ubuntu:20.04"
    AppPort := 8080
    Dependencies := ["git", "curl"]
    CopyFiles := [{ Origin := "main.go", Destination := "/app/main.go" }]
    BuildCommand := "go build -o app ."
    PreRunCommands := ["chmod +x ./app"]
    RunCommand := ""
    Entrypoint := "/bin/sh -c"
    Workspace := "/app"
    ExposePort := true
    User := "nonroot"
    OrderedDockerCmds := [] }

/-- The full document generated for the section-8 scenario. -/
def scenarioExpected : String :=
  "# Auto-generated Dockerfile\n# Do not edit this file manually\n# Dockerbot version: dev\nFROM ubuntu:20.04\n\nRUN apt-get update && apt-get install -y \\\n    git \\ \n    curl \\ \n    && apt-get clean && rm -rf /var/lib/apt/lists/*\n\nRUN chmod +x ./app\n\nUSER nonroot\n\nCOPY main.go /app/main.go\n\nRUN go build -o app .\n\nEXPOSE 8080\n\nWORKDIR /app\n\nENTRYPOINT [\"/bin/sh -c\"]\n"

/-- A configuration with the given base image and every other field empty or
absent. -/
def minimalConfig (base : String) : DockerfileConfig :=
  { BaseImage := base
    AppPort := 0
    Dependencies := []
    CopyFiles := []
    BuildCommand := ""
    PreRunCommands := []
    RunCommand := ""
    Entrypoint := ""
    Workspace := ""
    ExposePort := false
    User := ""
    OrderedDockerCmds := [] }

/-- A configuration with one generic instruction followed by a build command,
exhibiting the missing blank line after the generic-instruction block. -/
def genericThenBuildConfig : DockerfileConfig :=
  { BaseImage := "x"
    AppPort := 0
    Dependencies := []
    CopyFiles := []
    BuildCommand := "go build -o app ."
    PreRunCommands := []
    RunCommand := ""
    Entrypoint := ""
    Workspace := ""
    ExposePort := false
    User := ""
    OrderedDockerCmds := [{ CmdType := "RUN", Command := "echo hi", Args := [] }] }

/-- A configuration whose base image is empty while an ordered instruction
carries a kind outside the closed enumeration. -/
def emptyBaseBadKindConfig : DockerfileConfig :=
  { BaseImage := ""
    AppPort := 0
    Dependencies := []
    CopyFiles := []
    BuildCommand := ""
    PreRunCommands := []
    RunCommand := ""
    Entrypoint := ""
    Workspace := ""
    ExposePort := false
    User := ""
    OrderedDockerCmds := [{ CmdType := "BOGUS", Command := "x", Args := [] }] }

/-- A configuration with a non-empty base image and an ordered instruction
carrying a kind outside the closed enumeration. -/
def badKindConfig : DockerfileConfig :=
  { BaseImage := "ubuntu:20.04"
    AppPort := 0
    Dependencies := []
    CopyFiles := []
    BuildCommand := ""
    PreRunCommands := []
    RunCommand := ""
    Entrypoint := ""
    Workspace := ""
    ExposePort := false
    User := ""
    OrderedDockerCmds := [{ CmdType := "BOGUS", Command := "x", Args := [] }] }

/-- A configuration with two copy pairs, used to exercise the per-pair copy
lines. -/
def twoCopyConfig : DockerfileConfig :=
  { BaseImage := "debian:12"
    AppPort := 0
    Dependencies := []
    CopyFiles := [{ Origin := "go.mod", Destination := "/app/go.mod" },
                  { Origin := "main.go", Destination := "/app/main.go" }]
    BuildCommand := ""
    PreRunCommands := []
    RunCommand := ""
    Entrypoint := ""
    Workspace := ""
    ExposePort := false
    User := ""
    OrderedDockerCmds := [] }

/-! Claim C1. -/

/-- C1: for every configuration with non-empty base image whose generation
succeeds, the populated sections appear in the output in the fixed order
(base image, dependency block, pre-run lines, user, copy lines, generic
instructions, build command, port, workspace, entrypoint); in particular the
section-8 scenario yields exactly the expected document, whose substantive
lines are the nine sections in that order with a one-element entrypoint
array. -/
theorem claim_C1_section_order :
    (∀ c : DockerfileConfig, (GenerateDockerfileContent c).snd = none →
        ∃ t, writeDockerCmds c.OrderedDockerCmds = Except.ok t ∧
          GenerateDockerfileContent c =
            (headerText ++ fromSection c ++ depsSection c ++ preRunSection c ++
              userSection c ++ copySection c ++ t ++ buildSection c ++
              exposeSection c ++ workspaceSection c ++ entrypointSection c,
              none)) ∧
    GenerateDockerfileContent scenarioConfig = (scenarioExpected, none) ∧
    substantiveLines scenarioExpected =
      ["FROM ubuntu:20.04",
       "RUN apt-get update && apt-get install -y \\",
       "    git \\ ",
       "    curl \\ ",
       "    && apt-get clean && rm -rf /var/lib/apt/lists/*",
       "RUN chmod +x ./app",
       "USER nonroot",
       "COPY main.go /app/main.go",
       "RUN go build -o app .",
       "EXPOSE 8080",
       "WORKDIR /app",
       "ENTRYPOINT [\"/bin/sh -c\"]"] := by
  refine ⟨?_, by decide, by decide⟩
  intro c hok
  obtain ⟨hb, t, ht⟩ := generate_ok_inv c hok
  exact ⟨t, ht, generate_decomp c hb t ht⟩

/-- Witness for C1: the universally quantified part applied to the concrete
scenario configuration. -/
theorem claim_C1_witness :
    ∃ t, writeDockerCmds scenarioConfig.OrderedDockerCmds = Except.ok t ∧
      GenerateDockerfileContent scenarioConfig =
        (headerText ++ fromSection scenarioConfig ++ depsSection scenarioConfig ++
          preRunSection scenarioConfig ++ userSection scenarioConfig ++
          copySection scenarioConfig ++ t ++ buildSection scenarioConfig ++
          exposeSection scenarioConfig ++ workspaceSection scenarioConfig ++
          entrypointSection scenarioConfig, none) :=
  claim_C1_section_order.1 scenarioConfig (by decide)

/-! Claim C3. -/

/-- C3: every configuration with empty base image fails with the fixed
missing-required-field message and returns no output text. -/
theorem claim_C3_missing_base (c : DockerfileConfig) (h : c.BaseImage = "") :
    GenerateDockerfileContent c = ("", some "base image cannot be empty") :=
  generate_base_empty c h

/-- Witness for C3 at the all-empty configuration. -/
theorem claim_C3_witness :
    GenerateDockerfileContent (minimalConfig "") =
      ("", some "base image cannot be empty") :=
  claim_C3_missing_base (minimalConfig "") rfl

/-! Claim C10. -/

/-- C10: the base-image check runs before any generic-instruction formatting:
an empty base image yields the missing-required-field error even when an
ordered instruction has an unknown kind, and the unknown-kind error can only
be returned when the base image is non-empty. -/
theorem claim_C10_base_check_first :
    (∀ c : DockerfileConfig, c.BaseImage = "" →
        (∃ x ∈ c.OrderedDockerCmds, x.CmdType ∉ closedEnumeration) →
        GenerateDockerfileContent c = ("", some "base image cannot be empty")) ∧
    (∀ c : DockerfileConfig, ∀ k : String,
        (GenerateDockerfileContent c).snd =
          some ("unknown Docker command type: " ++ k) →
        ¬ c.BaseImage = "") := by
  constructor
  · intro c hb _
    exact generate_base_empty c hb
  · intro c k h hb
    rw [generate_base_empty c hb] at h
    simp only [Option.some.injEq] at h
    have h1 := congrArg String.length h
    rw [String.length_append] at h1
    have e1 : ("base image cannot be empty" : String).length = 26 := rfl
    have e2 : ("unknown Docker command type: " : String).length = 29 := rfl
    rw [e1, e2] at h1
    omega

/-- Witness for C10: an empty base image together with an unknown-kind
instruction still reports the missing base image. -/
theorem claim_C10_witness :
    GenerateDockerfileContent emptyBaseBadKindConfig =
      ("", some "base image cannot be empty") :=
  claim_C10_base_check_first.1 emptyBaseBadKindConfig rfl
    ⟨{ CmdType := "BOGUS", Command := "x", Args := [] }, by decide, by decide⟩

/-! Claim C5. -/

/-- C5 counterexample: with base image `alpine:latest` and every other field
empty, the output's substantive lines are the base-image line AND the
fallback full-context copy line, not the base-image line alone as the claim
states. -/
theorem claim_C5_counterexample :
    (GenerateDockerfileContent (minimalConfig "alpine:latest")).snd = none ∧
    substantiveLines (GenerateDockerfileContent (minimalConfig "alpine:latest")).fst =
      ["FROM alpine:latest", "COPY . ."] ∧
    substantiveLines (GenerateDockerfileContent (minimalConfig "alpine:latest")).fst ≠
      ["FROM alpine:latest"] := by
  decide

/-- C5 amended: with non-empty base image and all other fields empty, the
output is exactly the header comments, the base-image line, and the fallback
full-context copy line (each with its blank-line separator): no other
substantive section appears. -/
theorem claim_C5_base_and_fallback (base : String) (h : ¬ base = "") :
    GenerateDockerfileContent (minimalConfig base) =
      (headerText ++ ("FROM " ++ base ++ "\n" ++ "\n") ++ ("COPY . .\n" ++ "\n"),
        none) := by
  have hd := generate_decomp (minimalConfig base) h "" rfl
  simpa [minimalConfig, fromSection, depsSection, preRunSection, userSection,
    copySection, buildSection, exposeSection, workspaceSection,
    entrypointSection, String.append_assoc, String.append_empty] using hd

/-- Witness for C5's amended claim at a concrete base image. -/
theorem claim_C5_witness :
    GenerateDockerfileContent (minimalConfig "alpine:3.19") =
      (headerText ++ ("FROM " ++ "alpine:3.19" ++ "\n" ++ "\n") ++
        ("COPY . .\n" ++ "\n"), none) :=
  claim_C5_base_and_fallback "alpine:3.19" (by decide)

/-! Spec-side renderings, transcribed from the specification's wording. -/

/-- The spec's per-pair copy rendering: one line `COPY <origin> <destination>`. -/
def specCopyLine (p : CopyInstruction) : String :=
  "COPY " ++ p.Origin ++ " " ++ p.Destination ++ "\n"

/-- The spec's per-dependency rendering: one continued line per dependency. -/
def specDepLine (d : String) : String :=
  "    " ++ d ++ " \\ \n"

theorem join_foldl_init (l : List String) (x : String) :
    l.foldl (fun r s => r ++ s) x = x ++ l.foldl (fun r s => r ++ s) "" := by
  induction l generalizing x with
  | nil => simp
  | cons b bs ih =>
    simp only [List.foldl_cons]
    rw [ih (x ++ b), ih ("" ++ b)]
    simp [String.append_assoc, String.empty_append]

theorem join_cons_eq (a : String) (l : List String) :
    String.join (a :: l) = a ++ String.join l := by
  simp only [String.join, List.foldl_cons]
  rw [join_foldl_init l ("" ++ a)]
  simp [String.empty_append]

/-- The copy loop renders exactly one spec copy line per pair, in order. -/
theorem writeCopyFiles_join (l : List CopyInstruction) :
    writeCopyFiles l = String.join (l.map specCopyLine) := by
  induction l with
  | nil => rfl
  | cons f fs ih =>
    simp [writeCopyFiles, specCopyLine, join_cons_eq, ih, String.append_assoc]

/-- The dependency loop renders exactly one spec dependency line per
dependency, in order. -/
theorem writeDeps_join (l : List String) :
    writeDeps l = String.join (l.map specDepLine) := by
  induction l with
  | nil => rfl
  | cons d ds ih =>
    simp [writeDeps, specDepLine, join_cons_eq, ih, String.append_assoc]

/-- Each listed dependency's continued line occurs inside the dependency
loop's text. -/
theorem writeDeps_seg (d : String) (l : List String) (hd : d ∈ l) :
    containsSeg (specDepLine d) (writeDeps l) := by
  induction l with
  | nil => cases hd
  | cons a rest ih =>
    rcases List.mem_cons.mp hd with rfl | hmem
    · exact ⟨"", writeDeps rest, by
        simp [writeDeps, specDepLine, String.empty_append, String.append_assoc]⟩
    · exact containsSeg_left _ _ _ (ih hmem)

/-! Claim C6. -/

/-- C6: with non-empty base image (and a successful ordered-instruction
loop), the file-staging section of the output is exactly one `COPY` line per
(origin, destination) pair in original order when `copy_instructions` is
non-empty, and exactly the single fallback full-context copy line when it is
empty. -/
theorem claim_C6_copy_lines (c : DockerfileConfig) (h : ¬ c.BaseImage = "")
    (t : String) (hc : writeDockerCmds c.OrderedDockerCmds = Except.ok t) :
    GenerateDockerfileContent c =
      (headerText ++ fromSection c ++ depsSection c ++ preRunSection c ++
        userSection c ++
        ((if c.CopyFiles = [] then "COPY . .\n"
          else String.join (c.CopyFiles.map specCopyLine)) ++ "\n") ++
        t ++ buildSection c ++ exposeSection c ++ workspaceSection c ++
        entrypointSection c, none) := by
  have hcs : copySection c =
      (if c.CopyFiles = [] then "COPY . .\n"
        else String.join (c.CopyFiles.map specCopyLine)) ++ "\n" := by
    cases hcf : c.CopyFiles with
    | nil => simp [copySection, hcf]
    | cons f fs => simp [copySection, hcf, writeCopyFiles_join]
  rw [generate_decomp c h t hc, hcs]

/-- Witness for C6: the two-pair configuration renders one `COPY` line per
pair, in order. -/
theorem claim_C6_witness :
    GenerateDockerfileContent twoCopyConfig =
      ("# Auto-generated Dockerfile\n# Do not edit this file manually\n# Dockerbot version: dev\nFROM debian:12\n\nCOPY go.mod /app/go.mod\nCOPY main.go /app/main.go\n\n",
        none) := by
  have h := claim_C6_copy_lines twoCopyConfig (by decide) "" rfl
  rw [h]
  decide

/-! Claim C7. -/

/-- C7: with non-empty base image, non-empty dependencies and a successful
ordered-instruction loop, the output carries a single compound install
instruction — index refresh, one continued line per dependency in original
order, cache clean — and every dependency's continued line occurs inside the
output. -/
theorem claim_C7_deps_block (c : DockerfileConfig) (h : ¬ c.BaseImage = "")
    (t : String) (hc : writeDockerCmds c.OrderedDockerCmds = Except.ok t)
    (hdep : c.Dependencies ≠ []) :
    GenerateDockerfileContent c =
      (headerText ++ fromSection c ++
        ("RUN apt-get update && apt-get install -y \\\n" ++
          String.join (c.Dependencies.map specDepLine) ++
          "    && apt-get clean && rm -rf /var/lib/apt/lists/*\n" ++ "\n") ++
        preRunSection c ++ userSection c ++ copySection c ++ t ++
        buildSection c ++ exposeSection c ++ workspaceSection c ++
        entrypointSection c, none) ∧
    ∀ d ∈ c.Dependencies,
      containsSeg (specDepLine d) (GenerateDockerfileContent c).fst := by
  have hlen : c.Dependencies.length > 0 := List.length_pos.mpr hdep
  have hds : depsSection c =
      "RUN apt-get update && apt-get install -y \\\n" ++
        String.join (c.Dependencies.map specDepLine) ++
        "    && apt-get clean && rm -rf /var/lib/apt/lists/*\n" ++ "\n" := by
    rw [depsSection, if_pos hlen, writeDeps_join]
  constructor
  · rw [generate_decomp c h t hc, hds]
  · intro d hd
    obtain ⟨u, v, huv⟩ := writeDeps_seg d c.Dependencies hd
    have hfst := congrArg Prod.fst (generate_decomp c h t hc)
    refine ⟨headerText ++ fromSection c ++
        "RUN apt-get update && apt-get install -y \\\n" ++ u,
      v ++ "    && apt-get clean && rm -rf /var/lib/apt/lists/*\n" ++ "\n" ++
        preRunSection c ++ userSection c ++ copySection c ++ t ++
        buildSection c ++ exposeSection c ++ workspaceSection c ++
        entrypointSection c, ?_⟩
    rw [hfst]
    simp only [depsSection, if_pos hlen, huv, String.append_assoc]

/-- Witness for C7: both dependencies of the scenario configuration occur as
continued lines in its output. -/
theorem claim_C7_witness :
    containsSeg (specDepLine "curl")
      (GenerateDockerfileContent scenarioConfig).fst :=
  (claim_C7_deps_block scenarioConfig (by decide) "" rfl (by decide)).2
    "curl" (by decide)

/-! Claim C8. -/

/-- C8: with non-empty base image (and a successful ordered-instruction
loop), the workspace section carries a `WORKDIR` line exactly when
`workspace` is non-empty; when `workspace` is empty the section contributes
no text at all — in particular no blank-valued `WORKDIR` line. -/
theorem claim_C8_workdir_iff (c : DockerfileConfig) (h : ¬ c.BaseImage = "")
    (t : String) (hc : writeDockerCmds c.OrderedDockerCmds = Except.ok t) :
    GenerateDockerfileContent c =
      (headerText ++ fromSection c ++ depsSection c ++ preRunSection c ++
        userSection c ++ copySection c ++ t ++ buildSection c ++
        exposeSection c ++
        (if c.Workspace = "" then ""
          else "WORKDIR " ++ c.Workspace ++ "\n" ++ "\n") ++
        entrypointSection c, none) ∧
    (¬ c.Workspace = "" →
      containsSeg ("WORKDIR " ++ c.Workspace ++ "\n")
        (GenerateDockerfileContent c).fst) ∧
    (workspaceSection c = "" ↔ c.Workspace = "") := by
  have hws : workspaceSection c =
      if c.Workspace = "" then ""
        else "WORKDIR " ++ c.Workspace ++ "\n" ++ "\n" := by
    by_cases hw : c.Workspace = "" <;> simp [workspaceSection, hw]
  refine ⟨by rw [generate_decomp c h t hc, hws], ?_, ?_⟩
  · intro hw
    have hfst := congrArg Prod.fst (generate_decomp c h t hc)
    refine ⟨headerText ++ fromSection c ++ depsSection c ++ preRunSection c ++
        userSection c ++ copySection c ++ t ++ buildSection c ++
        exposeSection c,
      "\n" ++ entrypointSection c, ?_⟩
    rw [hfst]
    simp only [workspaceSection, if_pos hw, String.append_assoc]
  · constructor
    · intro hsec
      by_contra hw
      rw [workspaceSection, if_pos hw] at hsec
      have hlen := congrArg String.length hsec
      rw [String.length_append, String.length_append,
        String.length_append] at hlen
      have e1 : ("WORKDIR " : String).length = 8 := rfl
      have e2 : ("\n" : String).length = 1 := rfl
      have e3 : ("" : String).length = 0 := rfl
      rw [e1, e2, e3] at hlen
      omega
    · intro hw
      simp [workspaceSection, hw]

/-- Witness for C8: the scenario configuration's non-empty workspace yields
its `WORKDIR` line in the output. -/
theorem claim_C8_witness :
    containsSeg ("WORKDIR " ++ scenarioConfig.Workspace ++ "\n")
      (GenerateDockerfileContent scenarioConfig).fst :=
  (claim_C8_workdir_iff scenarioConfig (by decide) "" rfl).2.1 (by decide)

/-! Claim C9. -/

theorem writePreRunCmds_ends (l : List String) (h : l ≠ []) :
    ∃ y, writePreRunCmds l = y ++ "\n" := by
  induction l with
  | nil => cases h rfl
  | cons a rest ih =>
    by_cases hr : rest = []
    · subst hr
      exact ⟨"RUN " ++ a, by simp [writePreRunCmds, String.append_empty]⟩
    · obtain ⟨y, hy⟩ := ih hr
      refine ⟨"RUN " ++ a ++ "\n" ++ y, ?_⟩
      simp only [writePreRunCmds]
      rw [hy]
      simp [String.append_assoc]

theorem writeCopyFiles_ends (l : List CopyInstruction) (h : l ≠ []) :
    ∃ y, writeCopyFiles l = y ++ "\n" := by
  induction l with
  | nil => cases h rfl
  | cons f rest ih =>
    by_cases hr : rest = []
    · subst hr
      exact ⟨"COPY " ++ f.Origin ++ " " ++ f.Destination,
        by simp [writeCopyFiles, String.append_empty]⟩
    · obtain ⟨y, hy⟩ := ih hr
      refine ⟨"COPY " ++ f.Origin ++ " " ++ f.Destination ++ "\n" ++ y, ?_⟩
      simp only [writeCopyFiles]
      rw [hy]
      simp [String.append_assoc]

/-- C9 counterexample: with one generic instruction followed by a build
command, the populated generic-instruction section (`RUN echo hi` plus its
line terminator) is not followed by a blank line — the build line follows it
directly — contradicting the claim that every populated section except the
final entrypoint line is followed by exactly one blank line. -/
theorem claim_C9_counterexample :
    GenerateDockerfileContent genericThenBuildConfig =
      ("# Auto-generated Dockerfile\n# Do not edit this file manually\n# Dockerbot version: dev\nFROM x\n\nCOPY . .\n\nRUN echo hi\nRUN go build -o app .\n\n",
        none) ∧
    writeDockerCmds genericThenBuildConfig.OrderedDockerCmds =
      Except.ok "RUN echo hi\n" ∧
    ("RUN echo hi\n" : String) ≠ "" ∧
    ¬ endsWithOneBlankLine "RUN echo hi\n" :=
  ⟨by decide, rfl, by decide, by decide⟩

/-- C9 amended: each populated fixed section other than the
generic-instruction block and the final entrypoint line is emitted with its
last line terminated and exactly one appended blank-line separator; the
generic-instruction block is inserted verbatim with no separator after it
(visible in the decomposition), and the entrypoint line ends with a single
line terminator, not a blank line. -/
theorem claim_C9_separators (c : DockerfileConfig) (h : ¬ c.BaseImage = "")
    (t : String) (hc : writeDockerCmds c.OrderedDockerCmds = Except.ok t) :
    GenerateDockerfileContent c =
      (headerText ++ fromSection c ++ depsSection c ++ preRunSection c ++
        userSection c ++ copySection c ++ t ++ buildSection c ++
        exposeSection c ++ workspaceSection c ++ entrypointSection c, none) ∧
    (∀ s ∈ [fromSection c, depsSection c, preRunSection c, userSection c,
        copySection c, buildSection c, exposeSection c, workspaceSection c],
      s ≠ "" → ∃ content, s = content ++ "\n" ++ "\n") ∧
    (¬ c.Entrypoint = "" →
      ∃ content, entrypointSection c = content ++ "\n" ∧
        lastChars 2 (entrypointSection c) = [']', '\n']) := by
  refine ⟨generate_decomp c h t hc, ?_, ?_⟩
  · intro s hs hne
    simp only [List.mem_cons, List.not_mem_nil, or_false] at hs
    rcases hs with rfl | rfl | rfl | rfl | rfl | rfl | rfl | rfl
    · exact ⟨"FROM " ++ c.BaseImage, rfl⟩
    · by_cases hl : c.Dependencies.length > 0
      · refine ⟨"RUN apt-get update && apt-get install -y \\\n" ++
          writeDeps c.Dependencies ++
          "    && apt-get clean && rm -rf /var/lib/apt/lists/*", ?_⟩
        rw [depsSection, if_pos hl,
          show ("    && apt-get clean && rm -rf /var/lib/apt/lists/*\n" :
            String) =
            "    && apt-get clean && rm -rf /var/lib/apt/lists/*" ++ "\n"
            from rfl]
        simp [String.append_assoc]
      · simp [depsSection, hl] at hne
    · by_cases hl : c.PreRunCommands.length > 0
      · obtain ⟨y, hy⟩ :=
          writePreRunCmds_ends c.PreRunCommands (by
            intro hnil
            rw [hnil] at hl
            simp at hl)
        exact ⟨y, by rw [preRunSection, if_pos hl, hy]⟩
      · simp [preRunSection, hl] at hne
    · by_cases hu : c.User ≠ ""
      · exact ⟨"USER " ++ c.User, by rw [userSection, if_pos hu]⟩
      · simp [userSection, hu] at hne
    · by_cases hl : c.CopyFiles.length > 0
      · obtain ⟨y, hy⟩ :=
          writeCopyFiles_ends c.CopyFiles (by
            intro hnil
            rw [hnil] at hl
            simp at hl)
        exact ⟨y, by rw [copySection, if_pos hl, hy]⟩
      · refine ⟨"COPY . .", ?_⟩
        rw [copySection, if_neg hl,
          show ("COPY . .\n" : String) = "COPY . ." ++ "\n" from rfl]
    · by_cases hb : c.BuildCommand ≠ ""
      · exact ⟨"RUN " ++ c.BuildCommand, by rw [buildSection, if_pos hb]⟩
      · simp [buildSection, hb] at hne
    · by_cases he : c.ExposePort = true ∧ c.AppPort > 0
      · exact ⟨"EXPOSE " ++ toString c.AppPort,
          by rw [exposeSection, if_pos he]⟩
      · simp [exposeSection, he] at hne
    · by_cases hw : c.Workspace ≠ ""
      · exact ⟨"WORKDIR " ++ c.Workspace, by rw [workspaceSection, if_pos hw]⟩
      · simp [workspaceSection, hw] at hne
  · intro he
    refine ⟨"ENTRYPOINT [\"" ++ c.Entrypoint ++ "\"]", ?_, ?_⟩
    · rw [entrypointSection, if_pos he,
        show ("\"]\n" : String) = "\"]" ++ "\n" from rfl]
      simp [String.append_assoc]
    · rw [entrypointSection, if_pos he, lastChars_append] <;> decide

/-- Witness for C9's amended claim: the scenario configuration's build
section carries exactly one blank-line separator. -/
theorem claim_C9_witness :
    ∃ content, buildSection scenarioConfig = content ++ "\n" ++ "\n" := by
  have h9 := claim_C9_separators scenarioConfig (by decide) "" rfl
  exact h9.2.1 (buildSection scenarioConfig) (by simp) (by decide)

/-! Claim C2. -/

/-- The spec's kind-group rendering table for generic instructions,
transcribed row by row: the result is the single rendered line, or `none`
for a kind with no table row. -/
def specRenderTable (kind command : String) (args : List String) : Option String :=
  if kind = RUN ∨ kind = WORKDIR ∨ kind = USER ∨ kind = MAINTAINER then
    some (kind ++ " " ++ command ++ "\n")
  else if kind = COPY ∨ kind = ADD then
    some (if args ≠ [] then
        kind ++ " " ++ command ++ " " ++ String.intercalate " " args ++ "\n"
      else kind ++ " " ++ command ++ "\n")
  else if kind = EXPOSE ∨ kind = STOP_SIGNAL then
    some (if args ≠ [] then
        kind ++ " " ++ String.intercalate " " args ++ "\n"
      else kind ++ " " ++ command ++ "\n")
  else if kind = ENTRYPOINT ∨ kind = CMD then
    some (if args ≠ [] then
        kind ++ " [\"" ++ command ++ "\", \"" ++
          String.intercalate "\", \"" args ++ "\"]\n"
      else kind ++ " [\"" ++ command ++ "\"]\n")
  else if kind = VOLUME then
    some (if args ≠ [] then
        "VOLUME [\"" ++ String.intercalate "\", \"" args ++ "\"]\n"
      else "VOLUME [\"" ++ command ++ "\"]\n")
  else if kind = ARG ∨ kind = LABEL ∨ kind = ENV then
    some (if args ≠ [] then
        kind ++ " " ++ command ++ "=" ++ String.intercalate " " args ++ "\n"
      else kind ++ " " ++ command ++ "\n")
  else if kind = HEALTHCHECK then
    some (if args ≠ [] then
        "HEALTHCHECK CMD " ++ String.intercalate " " args ++ "\n"
      else "HEALTHCHECK CMD " ++ command ++ "\n")
  else none

/-- C2 counterexample: the kind `FROM` (the spec's base-image kind) belongs
to the closed enumeration, yet the formatting sub-routine produces no line
for it — it falls through to the unknown-kind error. -/
theorem claim_C2_counterexample :
    FROM ∈ closedEnumeration ∧
    formatDockerCmd { CmdType := FROM, Command := "ubuntu:20.04", Args := [] } =
      Except.error ("unknown Docker command type: FROM") ∧
    specRenderTable FROM "ubuntu:20.04" [] = none :=
  ⟨by decide, rfl, by decide⟩

/-- C2 amended: for every record whose kind is in the closed enumeration
other than the base-image kind `FROM`, the formatting sub-routine produces a
single rendering that agrees exactly with the spec's kind-group table and
ends with a line terminator. -/
theorem claim_C2_format_table (cmd : DockerCmd)
    (hmem : cmd.CmdType ∈ closedEnumeration) (hne : ¬ cmd.CmdType = FROM) :
    ∃ r, formatDockerCmd cmd = Except.ok r ∧
      specRenderTable cmd.CmdType cmd.Command cmd.Args = some r ∧
      lastChars 1 r = ['\n'] := by
  obtain ⟨ty, co, ar⟩ := cmd
  simp only [closedEnumeration, FROM, RUN, COPY, ADD, WORKDIR, EXPOSE, USER,
    ENTRYPOINT, CMD, VOLUME, ARG, LABEL, ENV, HEALTHCHECK, MAINTAINER,
    STOP_SIGNAL, List.mem_cons, List.not_mem_nil, or_false] at hmem
  rcases hmem with rfl | rfl | rfl | rfl | rfl | rfl | rfl | rfl | rfl | rfl |
    rfl | rfl | rfl | rfl | rfl | rfl
  · exact absurd rfl hne
  -- RUN
  · exact ⟨_, rfl, rfl, by rw [lastChars_append] <;> decide⟩
  -- COPY
  · cases ar with
    | nil => exact ⟨_, rfl, rfl, by rw [lastChars_append] <;> decide⟩
    | cons a as =>
      refine ⟨"COPY" ++ " " ++ co ++ " " ++
        String.intercalate " " (a :: as) ++ "\n", ?_, ?_,
        by rw [lastChars_append] <;> decide⟩
      · simp [formatDockerCmd, RUN, WORKDIR, USER, MAINTAINER, COPY]
      · simp [specRenderTable, RUN, WORKDIR, USER, MAINTAINER, COPY]
  -- ADD
  · cases ar with
    | nil => exact ⟨_, rfl, rfl, by rw [lastChars_append] <;> decide⟩
    | cons a as =>
      refine ⟨"ADD" ++ " " ++ co ++ " " ++
        String.intercalate " " (a :: as) ++ "\n", ?_, ?_,
        by rw [lastChars_append] <;> decide⟩
      · simp [formatDockerCmd, RUN, WORKDIR, USER, MAINTAINER, COPY, ADD]
      · simp [specRenderTable, RUN, WORKDIR, USER, MAINTAINER, COPY, ADD]
  -- WORKDIR
  · exact ⟨_, rfl, rfl, by rw [lastChars_append] <;> decide⟩
  -- EXPOSE
  · cases ar with
    | nil => exact ⟨_, rfl, rfl, by rw [lastChars_append] <;> decide⟩
    | cons a as =>
      refine ⟨"EXPOSE" ++ " " ++ String.intercalate " " (a :: as) ++ "\n",
        ?_, ?_, by rw [lastChars_append] <;> decide⟩
      · simp [formatDockerCmd, RUN, WORKDIR, USER, MAINTAINER, COPY, ADD,
          EXPOSE, STOP_SIGNAL]
      · simp [specRenderTable, RUN, WORKDIR, USER, MAINTAINER, COPY, ADD,
          EXPOSE, STOP_SIGNAL]
  -- USER
  · exact ⟨_, rfl, rfl, by rw [lastChars_append] <;> decide⟩
  -- ENTRYPOINT
  · cases ar with
    | nil => exact ⟨_, rfl, rfl, by rw [lastChars_append] <;> decide⟩
    | cons a as =>
      refine ⟨"ENTRYPOINT" ++ " [\"" ++ co ++ "\", \"" ++
        String.intercalate "\", \"" (a :: as) ++ "\"]\n", ?_, ?_,
        by rw [lastChars_append] <;> decide⟩
      · simp [formatDockerCmd, RUN, WORKDIR, USER, MAINTAINER, COPY, ADD,
          EXPOSE, STOP_SIGNAL, ENTRYPOINT, CMD]
      · simp [specRenderTable, RUN, WORKDIR, USER, MAINTAINER, COPY, ADD,
          EXPOSE, STOP_SIGNAL, ENTRYPOINT, CMD]
  -- CMD
  · cases ar with
    | nil => exact ⟨_, rfl, rfl, by rw [lastChars_append] <;> decide⟩
    | cons a as =>
      refine ⟨"CMD" ++ " [\"" ++ co ++ "\", \"" ++
        String.intercalate "\", \"" (a :: as) ++ "\"]\n", ?_, ?_,
        by rw [lastChars_append] <;> decide⟩
      · simp [formatDockerCmd, RUN, WORKDIR, USER, MAINTAINER, COPY, ADD,
          EXPOSE, STOP_SIGNAL, ENTRYPOINT, CMD]
      · simp [specRenderTable, RUN, WORKDIR, USER, MAINTAINER, COPY, ADD,
          EXPOSE, STOP_SIGNAL, ENTRYPOINT, CMD]
  -- VOLUME
  · cases ar with
    | nil => exact ⟨_, rfl, rfl, by rw [lastChars_append] <;> decide⟩
    | cons a as =>
      refine ⟨"VOLUME [\"" ++ String.intercalate "\", \"" (a :: as) ++
        "\"]\n", ?_, ?_, by rw [lastChars_append] <;> decide⟩
      · simp [formatDockerCmd, RUN, WORKDIR, USER, MAINTAINER, COPY, ADD,
          EXPOSE, STOP_SIGNAL, ENTRYPOINT, CMD, VOLUME]
      · simp [specRenderTable, RUN, WORKDIR, USER, MAINTAINER, COPY, ADD,
          EXPOSE, STOP_SIGNAL, ENTRYPOINT, CMD, VOLUME]
  -- ARG
  · cases ar with
    | nil => exact ⟨_, rfl, rfl, by rw [lastChars_append] <;> decide⟩
    | cons a as =>
      refine ⟨"ARG" ++ " " ++ co ++ "=" ++
        String.intercalate " " (a :: as) ++ "\n", ?_, ?_,
        by rw [lastChars_append] <;> decide⟩
      · simp [formatDockerCmd, RUN, WORKDIR, USER, MAINTAINER, COPY, ADD,
          EXPOSE, STOP_SIGNAL, ENTRYPOINT, CMD, VOLUME, ARG, LABEL, ENV]
      · simp [specRenderTable, RUN, WORKDIR, USER, MAINTAINER, COPY, ADD,
          EXPOSE, STOP_SIGNAL, ENTRYPOINT, CMD, VOLUME, ARG, LABEL, ENV]
  -- LABEL
  · cases ar with
    | nil => exact ⟨_, rfl, rfl, by rw [lastChars_append] <;> decide⟩
    | cons a as =>
      refine ⟨"LABEL" ++ " " ++ co ++ "=" ++
        String.intercalate " " (a :: as) ++ "\n", ?_, ?_,
        by rw [lastChars_append] <;> decide⟩
      · simp [formatDockerCmd, RUN, WORKDIR, USER, MAINTAINER, COPY, ADD,
          EXPOSE, STOP_SIGNAL, ENTRYPOINT, CMD, VOLUME, ARG, LABEL, ENV]
      · simp [specRenderTable, RUN, WORKDIR, USER, MAINTAINER, COPY, ADD,
          EXPOSE, STOP_SIGNAL, ENTRYPOINT, CMD, VOLUME, ARG, LABEL, ENV]
  -- ENV
  · cases ar with
    | nil => exact ⟨_, rfl, rfl, by rw [lastChars_append] <;> decide⟩
    | cons a as =>
      refine ⟨"ENV" ++ " " ++ co ++ "=" ++
        String.intercalate " " (a :: as) ++ "\n", ?_, ?_,
        by rw [lastChars_append] <;> decide⟩
      · simp [formatDockerCmd, RUN, WORKDIR, USER, MAINTAINER, COPY, ADD,
          EXPOSE, STOP_SIGNAL, ENTRYPOINT, CMD, VOLUME, ARG, LABEL, ENV]
      · simp [specRenderTable, RUN, WORKDIR, USER, MAINTAINER, COPY, ADD,
          EXPOSE, STOP_SIGNAL, ENTRYPOINT, CMD, VOLUME, ARG, LABEL, ENV]
  -- HEALTHCHECK
  · cases ar with
    | nil => exact ⟨_, rfl, rfl, by rw [lastChars_append] <;> decide⟩
    | cons a as =>
      refine ⟨"HEALTHCHECK CMD " ++ String.intercalate " " (a :: as) ++ "\n",
        ?_, ?_, by rw [lastChars_append] <;> decide⟩
      · simp [formatDockerCmd, RUN, WORKDIR, USER, MAINTAINER, COPY, ADD,
          EXPOSE, STOP_SIGNAL, ENTRYPOINT, CMD, VOLUME, ARG, LABEL, ENV,
          HEALTHCHECK]
      · simp [specRenderTable, RUN, WORKDIR, USER, MAINTAINER, COPY, ADD,
          EXPOSE, STOP_SIGNAL, ENTRYPOINT, CMD, VOLUME, ARG, LABEL, ENV,
          HEALTHCHECK]
  -- MAINTAINER
  · exact ⟨_, rfl, rfl, by rw [lastChars_append] <;> decide⟩
  -- STOPSIGNAL
  · cases ar with
    | nil => exact ⟨_, rfl, rfl, by rw [lastChars_append] <;> decide⟩
    | cons a as =>
      refine ⟨"STOPSIGNAL" ++ " " ++ String.intercalate " " (a :: as) ++
        "\n", ?_, ?_, by rw [lastChars_append] <;> decide⟩
      · simp [formatDockerCmd, RUN, WORKDIR, USER, MAINTAINER, COPY, ADD,
          EXPOSE, STOP_SIGNAL]
      · simp [specRenderTable, RUN, WORKDIR, USER, MAINTAINER, COPY, ADD,
          EXPOSE, STOP_SIGNAL]

/-- Witness for C2's amended claim at a concrete entrypoint record with two
arguments. -/
theorem claim_C2_witness :
    ∃ r, formatDockerCmd
        { CmdType := "ENTRYPOINT", Command := "/bin/sh", Args := ["-c", "./app"] } =
        Except.ok r ∧
      specRenderTable "ENTRYPOINT" "/bin/sh" ["-c", "./app"] = some r ∧
      lastChars 1 r = ['\n'] :=
  claim_C2_format_table
    { CmdType := "ENTRYPOINT", Command := "/bin/sh", Args := ["-c", "./app"] }
    (by decide) (by decide)

/-! Claim C4. -/

/-- The only error the formatting sub-routine can produce names the
offending kind. -/
theorem formatDockerCmd_error_eq (x : DockerCmd) (e : String)
    (h : formatDockerCmd x = Except.error e) :
    e = "unknown Docker command type: " ++ x.CmdType := by
  unfold formatDockerCmd at h
  repeat' split at h
  all_goals first
    | (injection h with h2; exact h2.symm)
    | injection h

/-- A kind outside the closed enumeration falls through every case of the
formatting switch. -/
theorem formatDockerCmd_not_in_enum (x : DockerCmd)
    (h : x.CmdType ∉ closedEnumeration) :
    formatDockerCmd x =
      Except.error ("unknown Docker command type: " ++ x.CmdType) := by
  simp only [closedEnumeration, FROM, RUN, COPY, ADD, WORKDIR, EXPOSE, USER,
    ENTRYPOINT, CMD, VOLUME, ARG, LABEL, ENV, HEALTHCHECK, MAINTAINER,
    STOP_SIGNAL, List.mem_cons, List.not_mem_nil, or_false, not_or] at h
  obtain ⟨h1, h2, h3, h4, h5, h6, h7, h8, h9, h10, h11, h12, h13, h14, h15,
    h16⟩ := h
  simp [formatDockerCmd, RUN, COPY, ADD, WORKDIR, EXPOSE, USER, ENTRYPOINT,
    CMD, VOLUME, ARG, LABEL, ENV, HEALTHCHECK, MAINTAINER, STOP_SIGNAL,
    h2, h3, h4, h5, h6, h7, h8, h9, h10, h11, h12, h13, h14, h15, h16]

/-- If some element of the list fails to format, the loop stops at the first
failing element and reports the error naming that element's kind. -/
theorem writeDockerCmds_error_of_bad (l : List DockerCmd) (x : DockerCmd)
    (hx : x ∈ l)
    (he : formatDockerCmd x =
      Except.error ("unknown Docker command type: " ++ x.CmdType)) :
    ∃ y ∈ l,
      formatDockerCmd y =
        Except.error ("unknown Docker command type: " ++ y.CmdType) ∧
      writeDockerCmds l =
        Except.error ("unknown Docker command type: " ++ y.CmdType) := by
  induction l with
  | nil => cases hx
  | cons a as ih =>
    cases hfa : formatDockerCmd a with
    | error e =>
      have hea := formatDockerCmd_error_eq a e hfa
      subst hea
      exact ⟨a, List.mem_cons_self a as, hfa, by simp [writeDockerCmds, hfa]⟩
    | ok s =>
      have hx' : x ∈ as := by
        rcases List.mem_cons.mp hx with rfl | hmem
        · rw [hfa] at he
          cases he
        · exact hmem
      obtain ⟨y, hy, hye, hw⟩ := ih hx'
      refine ⟨y, List.mem_cons_of_mem a hy, hye, ?_⟩
      simp [writeDockerCmds, hfa, hw]

/-- C4: with non-empty base image, any configuration containing an ordered
instruction whose kind is outside the closed enumeration fails; the error
names the kind of an offending record of the list, and the returned text is
empty — the caller never observes a partial document. -/
theorem claim_C4_unknown_kind (c : DockerfileConfig)
    (hb : ¬ c.BaseImage = "")
    (hbad : ∃ x ∈ c.OrderedDockerCmds, x.CmdType ∉ closedEnumeration) :
    ∃ y ∈ c.OrderedDockerCmds,
      formatDockerCmd y =
        Except.error ("unknown Docker command type: " ++ y.CmdType) ∧
      GenerateDockerfileContent c =
        ("", some ("unknown Docker command type: " ++ y.CmdType)) := by
  obtain ⟨x, hx, hxk⟩ := hbad
  obtain ⟨y, hy, hye, hw⟩ :=
    writeDockerCmds_error_of_bad c.OrderedDockerCmds x hx
      (formatDockerCmd_not_in_enum x hxk)
  exact ⟨y, hy, hye, generate_cmds_error c hb _ hw⟩

/-- Witness for C4: the configuration with one `BOGUS`-kind instruction
fails with the message naming `BOGUS` and returns no text. -/
theorem claim_C4_witness :
    GenerateDockerfileContent badKindConfig =
      ("", some "unknown Docker command type: BOGUS") := by
  obtain ⟨y, hy, hye, hgen⟩ :=
    claim_C4_unknown_kind badKindConfig (by decide)
      ⟨{ CmdType := "BOGUS", Command := "x", Args := [] }, by decide, by decide⟩
  simp only [badKindConfig, List.mem_cons, List.not_mem_nil, or_false] at hy
  subst hy
  simpa using hgen

end GoDockerfile
